import Mathlib

/-!
Shallow embedding of the `AiService` class
(`packages/cli/src/services/ai.service.ts`-style file, given as
`src/unnamed/part_000`) together with the `AiAssistantConfig` settings class
(`packages/@n8n/config/src/configs/ai-assistant.config.ts`).

The service keeps three mutable fields (`client`, `customHttpClient`,
`useCustomEndpoint`), lazily initialized on first use, and exposes four
operations (`chat`, `applySuggestion`, `askAi`, `createFreeAiCredits`).
External collaborators (the license service, the vendor SDK, axios transport,
environment variables) are modelled as explicit values and function
parameters; `console.log` diagnostics carry no state and are modelled only
where a claim observes them (the entitlement log in `init`).
-/

/-! ## A small JSON value model

Models the JavaScript JSON values flowing through the service
(`JSON.parse` / `JSON.stringify`).  Numbers are modelled as integers, which
covers every value the verified claims touch. -/

inductive Json where
  | null
  | bool (b : Bool)
  | num (n : Int)
  | str (s : String)
  | arr (elems : List Json)
  | obj (fields : List (String × Json))
  deriving Repr, Inhabited

/-- Json disequality and equality tests are needed for concrete witnesses. -/
def Json.beq : Json → Json → Bool
  | .null, .null => true
  | .bool a, .bool b => a == b
  | .num a, .num b => a == b
  | .str a, .str b => a == b
  | .arr (a :: as), .arr (b :: bs) => Json.beq a b && Json.beq (.arr as) (.arr bs)
  | .arr [], .arr [] => true
  | .obj ((ka, va) :: as), .obj ((kb, vb) :: bs) =>
      ka == kb && Json.beq va vb && Json.beq (.obj as) (.obj bs)
  | .obj [], .obj [] => true
  | _, _ => false

/-! ## JSON parsing (model of `JSON.parse`)

A fuel-indexed recursive-descent parser over the character list of the input.
It accepts the JSON fragment exercised by the service (objects, arrays,
strings with standard escapes, integers, booleans, null) and fails — as
`JSON.parse` throws — on anything else. -/

def skipWs : List Char → List Char
  | [] => []
  | c :: cs => if c = ' ' ∨ c = '\t' ∨ c = '\n' ∨ c = '\r' then skipWs cs else c :: cs

def unescapeChar : Char → Option Char
  | '"' => some '"'
  | '\\' => some '\\'
  | '/' => some '/'
  | 'b' => some (Char.ofNat 8)
  | 'f' => some (Char.ofNat 12)
  | 'n' => some '\n'
  | 'r' => some '\r'
  | 't' => some '\t'
  | _ => none

def parseStringChars : List Char → Option (List Char × List Char)
  | [] => none
  | '"' :: cs => some ([], cs)
  | '\\' :: e :: cs =>
      match unescapeChar e with
      | none => none
      | some c =>
          match parseStringChars cs with
          | none => none
          | some (acc, rest) => some (c :: acc, rest)
  | c :: cs =>
      match parseStringChars cs with
      | none => none
      | some (acc, rest) => some (c :: acc, rest)

def takeDigits : List Char → List Char × List Char
  | [] => ([], [])
  | c :: cs =>
      if c.isDigit then
        let (ds, rest) := takeDigits cs
        (c :: ds, rest)
      else ([], c :: cs)

def digitsToNat (ds : List Char) : Nat :=
  ds.foldl (fun n c => n * 10 + (c.toNat - 48)) 0

def parseNumber : List Char → Option (Int × List Char)
  | '-' :: cs =>
      match takeDigits cs with
      | ([], _) => none
      | (ds, rest) => some (-(Int.ofNat (digitsToNat ds)), rest)
  | cs =>
      match takeDigits cs with
      | ([], _) => none
      | (ds, rest) => some (Int.ofNat (digitsToNat ds), rest)

mutual

def parseValue : Nat → List Char → Option (Json × List Char)
  | 0, _ => none
  | fuel + 1, cs =>
      match skipWs cs with
      | 'n' :: 'u' :: 'l' :: 'l' :: rest => some (.null, rest)
      | 't' :: 'r' :: 'u' :: 'e' :: rest => some (.bool true, rest)
      | 'f' :: 'a' :: 'l' :: 's' :: 'e' :: rest => some (.bool false, rest)
      | '"' :: rest =>
          match parseStringChars rest with
          | some (chars, rest') => some (.str (String.mk chars), rest')
          | none => none
      | '[' :: rest =>
          match skipWs rest with
          | ']' :: rest' => some (.arr [], rest')
          | rest' =>
              match parseElems fuel rest' with
              | some (xs, rest'') => some (.arr xs, rest'')
              | none => none
      | '\x7b' :: rest =>
          match skipWs rest with
          | '\x7d' :: rest' => some (.obj [], rest')
          | rest' =>
              match parseMembers fuel rest' with
              | some (fs, rest'') => some (.obj fs, rest'')
              | none => none
      | rest => (parseNumber rest).map fun (n, r) => (.num n, r)

def parseElems : Nat → List Char → Option (List Json × List Char)
  | 0, _ => none
  | fuel + 1, cs =>
      match parseValue fuel cs with
      | none => none
      | some (v, rest) =>
          match skipWs rest with
          | ',' :: rest' =>
              match parseElems fuel rest' with
              | some (xs, rest'') => some (v :: xs, rest'')
              | none => none
          | ']' :: rest' => some ([v], rest')
          | _ => none

def parseMembers : Nat → List Char → Option (List (String × Json) × List Char)
  | 0, _ => none
  | fuel + 1, cs =>
      match skipWs cs with
      | '"' :: rest =>
          match parseStringChars rest with
          | none => none
          | some (key, rest') =>
              match skipWs rest' with
              | ':' :: rest'' =>
                  match parseValue fuel rest'' with
                  | none => none
                  | some (v, r) =>
                      match skipWs r with
                      | ',' :: r' =>
                          match parseMembers fuel r' with
                          | some (fs, r'') => some ((String.mk key, v) :: fs, r'')
                          | none => none
                      | '\x7d' :: r' => some ([(String.mk key, v)], r')
                      | _ => none
              | _ => none
      | _ => none

end

/-- Model of `JSON.parse`: parse a full JSON document (trailing whitespace
allowed); `none` models the `SyntaxError` that `JSON.parse` throws. -/
def jsonParse (s : String) : Option Json :=
  match parseValue (s.length + 1) s.data with
  | some (j, rest) => if skipWs rest = [] then some j else none
  | none => none

/-! ## JSON serialization (model of `JSON.stringify`) -/

def escapeJsonChar (c : Char) : String :=
  if c = '"' then "\\\""
  else if c = '\\' then "\\\\"
  else if c = '\n' then "\\n"
  else if c = '\t' then "\\t"
  else if c = '\r' then "\\r"
  else String.singleton c

def quoteString (s : String) : String :=
  "\"" ++ String.join (s.data.map escapeJsonChar) ++ "\""

mutual

def jsonStringify : Json → String
  | .null => "null"
  | .bool true => "true"
  | .bool false => "false"
  | .num n => toString n
  | .str s => quoteString s
  | .arr xs => "[" ++ stringifyElems xs ++ "]"
  | .obj fs => "\x7b" ++ stringifyMembers fs ++ "\x7d"

def stringifyElems : List Json → String
  | [] => ""
  | [x] => jsonStringify x
  | x :: y :: xs => jsonStringify x ++ "," ++ stringifyElems (y :: xs)

def stringifyMembers : List (String × Json) → String
  | [] => ""
  | [(k, v)] => quoteString k ++ ":" ++ jsonStringify v
  | (k, v) :: f :: fs => quoteString k ++ ":" ++ jsonStringify v ++ "," ++ stringifyMembers (f :: fs)

end

/-- Model of `JSON.stringify(x, null, 2)` (used for the ask-operation context).
The claims under verification never inspect this string, so the indentation
whitespace of the pretty format is not reproduced. -/
def jsonStringifyPretty (j : Json) : String :=
  jsonStringify j

example : jsonParse "\x7b\"a\":1\x7d" = some (.obj [("a", .num 1)]) := rfl
example : jsonParse "\x7b\x7d" = some (.obj []) := rfl
example : jsonParse "not json" = none := rfl
example : jsonParse "[1,true,\"x\"]" = some (.arr [.num 1, .bool true, .str "x"]) := rfl

/-! ## Configuration, collaborators, and service state

Mirrors `AiAssistantConfig` (three string fields defaulting to the empty
string, each with an environment-variable annotation), the slice of
`GlobalConfig` read by the service (`aiAssistant`, `logging.level`), the
`License` collaborator interface, and the raw environment (`process.env`),
where an unset variable is `none`. -/

structure AiAssistantConfig where
  baseUrl : String
  apiKey : String
  model : String
  deriving Repr, DecidableEq

structure LoggingConfig where
  level : String
  deriving Repr, DecidableEq

structure GlobalConfig where
  aiAssistant : AiAssistantConfig
  logging : LoggingConfig
  deriving Repr, DecidableEq

/-- Process environment slice read by `init` (`process.env.*`); `none` models
an unset variable. -/
structure EnvVars where
  N8N_AI_ASSISTANT_BASE_URL : Option String
  N8N_AI_ASSISTANT_API_KEY : Option String
  N8N_AI_MODEL : Option String
  deriving Repr, DecidableEq

/-- The `License` collaborator, modelled by the values its three methods
return (`isAiAssistantEnabled()`, `loadCertStr()`, `getConsumerId()`). -/
structure License where
  isAiAssistantEnabled : Bool
  certStr : String
  consumerId : String
  deriving Repr, DecidableEq

/-- Modelled from the spec: the process version string imported from the
`constants` module, which is not under `src/`; its concrete value is
irrelevant to every claim. -/
def N8N_VERSION : String := "1.0.0"

/-- The axios instance created by `axios.create(...)`: base URL, default
headers, timeout. -/
structure HttpClientConfig where
  baseURL : String
  headers : List (String × String)
  timeout : Nat
  deriving Repr, DecidableEq

/-- The settings object passed to `new AiAssistantClient({...})`. -/
structure VendorClientSettings where
  licenseCert : String
  consumerId : String
  n8nVersion : String
  baseUrl : String
  logLevel : String
  deriving Repr, DecidableEq

/-- The three mutable fields of the `AiService` instance. -/
structure AiState where
  client : Option VendorClientSettings
  customHttpClient : Option HttpClientConfig
  useCustomEndpoint : Bool
  deriving Repr, DecidableEq

/-- Field defaults of the class: both handles absent, flag false. -/
def initState : AiState :=
  { client := none, customHttpClient := none, useCustomEndpoint := false }

/-! ## Request and response shapes -/

/-- The slice of `IUser` the service touches, plus one further field so that
passing the whole user object is observably different from passing only the
`{id}` projection (the real `IUser` carries many more fields). -/
structure IUser where
  id : String
  email : String
  deriving Repr, DecidableEq

/-- The `{ id: user.id }` reference handed to the vendor SDK methods. -/
structure UserRef where
  id : String
  deriving Repr, DecidableEq

/-- `AiChatRequestDto`: a free-form payload and an optional session id. -/
structure AiChatRequestDto where
  payload : Json
  sessionId : Option String
  deriving Repr

/-- `AiApplySuggestionRequestDto`: session id plus suggestion id. -/
structure AiApplySuggestionRequestDto where
  sessionId : String
  suggestionId : String
  deriving Repr, DecidableEq

/-- `AiAskRequestDto`: question, free-form context, and target node name. -/
structure AiAskRequestDto where
  question : String
  context : Json
  forNode : String
  deriving Repr

/-- One entry of the chat response `messages` array. -/
structure AssistantMessage where
  role : String
  type : String
  text : String
  deriving Repr, DecidableEq

/-- Shape returned by `chat` in direct-endpoint mode (and by the vendor
client's `chat`). -/
structure ChatResponse where
  sessionId : Option String
  messages : List AssistantMessage
  deriving Repr, DecidableEq

/-- Shape returned by `applySuggestion`. -/
structure ApplySuggestionResponse where
  sessionId : String
  parameters : Json
  deriving Repr

/-- Shape returned by `askAi`. -/
structure AskResponse where
  answer : String
  code : String
  deriving Repr, DecidableEq

/-! ## The OpenAI-style wire contract of the direct endpoint -/

structure RoleMessage where
  role : String
  content : String
  deriving Repr, DecidableEq

/-- Body of the outbound `POST /v1/chat/completions` request. -/
structure OpenAIRequestBody where
  model : String
  messages : List RoleMessage
  stream : Bool
  user : String
  deriving Repr, DecidableEq

/-- An outbound request through the custom axios client. -/
structure DirectRequest where
  path : String
  body : OpenAIRequestBody
  deriving Repr, DecidableEq

/-- Inbound response data: `choices?.[0]?.message?.content` — every level may
be absent. -/
structure OpenAIMessage where
  content : Option String
  deriving Repr, DecidableEq

structure OpenAIChoice where
  message : Option OpenAIMessage
  deriving Repr, DecidableEq

structure OpenAIResponse where
  choices : Option (List OpenAIChoice)
  deriving Repr, DecidableEq

/-- Outcome of `await this.customHttpClient.post(...)`: either the parsed
response data, or an axios error carrying `error.response?.status`,
`error.response?.data?.message` and `error.message`. -/
inductive TransportResult where
  | success (data : OpenAIResponse)
  | failure (status : Option Nat) (dataMessage : Option String) (message : String)
  deriving Repr, DecidableEq

/-- The axios transport: posting a request through a configured client yields
a `TransportResult`. -/
def Transport : Type :=
  HttpClientConfig → DirectRequest → TransportResult

/-- The vendor SDK (`@n8n_io/ai-assistant-sdk`), opaque to this service: each
method of a client constructed from given settings maps a payload and a user
argument to a result or a failure. -/
structure VendorSdk where
  chat : VendorClientSettings → AiChatRequestDto → UserRef → Except String ChatResponse
  applySuggestion : VendorClientSettings → AiApplySuggestionRequestDto → UserRef →
      Except String ApplySuggestionResponse
  askAi : VendorClientSettings → AiAskRequestDto → UserRef → Except String AskResponse
  generateAiCreditsCredentials : VendorClientSettings → IUser → Except String Json

/-! ## JavaScript truthiness helpers -/

/-- JavaScript `config || env` for a string config value with an optional
environment fallback: the config value wins when non-empty (truthy), an unset
variable contributes the empty string. -/
def resolveField (cfgVal : String) (envVal : Option String) : String :=
  if cfgVal = "" then envVal.getD "" else cfgVal

/-- JavaScript `x || d` where `x` is a possibly-absent string: absent and
empty both fall through to the default. -/
def jsTruthyOr (x : Option String) (d : String) : String :=
  match x with
  | some s => if s = "" then d else s
  | none => d

/-- Line 39: `this.globalConfig.aiAssistant.baseUrl || process.env.N8N_AI_ASSISTANT_BASE_URL`. -/
def resolvedBaseUrl (cfg : GlobalConfig) (env : EnvVars) : String :=
  resolveField cfg.aiAssistant.baseUrl env.N8N_AI_ASSISTANT_BASE_URL

/-- Line 40: `this.globalConfig.aiAssistant.apiKey || process.env.N8N_AI_ASSISTANT_API_KEY`. -/
def resolvedApiKey (cfg : GlobalConfig) (env : EnvVars) : String :=
  resolveField cfg.aiAssistant.apiKey env.N8N_AI_ASSISTANT_API_KEY

/-- Line 41: `this.globalConfig.aiAssistant.model || process.env.N8N_AI_MODEL`. -/
def resolvedModel (cfg : GlobalConfig) (env : EnvVars) : String :=
  resolveField cfg.aiAssistant.model env.N8N_AI_MODEL

/-- The guard of line 59: `if (baseUrl && apiKey)`. -/
def configValid (cfg : GlobalConfig) (env : EnvVars) : Prop :=
  resolvedBaseUrl cfg env ≠ "" ∧ resolvedApiKey cfg env ≠ ""

instance (cfg : GlobalConfig) (env : EnvVars) : Decidable (configValid cfg env) :=
  inferInstanceAs (Decidable (_ ∧ _))

/-! ## `init()` (lines 26-87) -/

/-- The axios client constructed at lines 63-72: base URL, bearer auth,
content type, user agent, spread-in `X-Model` header only when `model` is
truthy, 30s timeout. -/
def mkDirectHttpClient (baseUrl apiKey model : String) : HttpClientConfig :=
  { baseURL := baseUrl
    headers :=
      [("Authorization", "Bearer " ++ apiKey),
       ("Content-Type", "application/json"),
       ("User-Agent", "n8n/" ++ N8N_VERSION)] ++
      (if model ≠ "" then [("X-Model", model)] else [])
    timeout := 30000 }

/-- The settings for `new AiAssistantClient({...})` at lines 79-85; note
`baseUrl || ''`. -/
def mkVendorSettings (cfg : GlobalConfig) (lic : License) (baseUrl : String) :
    VendorClientSettings :=
  { licenseCert := lic.certStr
    consumerId := lic.consumerId
    n8nVersion := N8N_VERSION
    baseUrl := baseUrl
    logLevel := cfg.logging.level }

/-- `init()`: resolve the endpoint configuration with the config-first,
environment-fallback lookup; when both baseUrl and apiKey are truthy, set the
custom-endpoint flag and construct the axios client, otherwise construct the
vendor `AiAssistantClient`.  The untouched fields of the instance keep their
previous values. -/
def initService (cfg : GlobalConfig) (env : EnvVars) (lic : License) (s : AiState) :
    AiState :=
  if resolvedBaseUrl cfg env ≠ "" ∧ resolvedApiKey cfg env ≠ "" then
    { s with
        useCustomEndpoint := true
        customHttpClient := some (mkDirectHttpClient (resolvedBaseUrl cfg env)
          (resolvedApiKey cfg env) (resolvedModel cfg env)) }
  else
    { s with client := some (mkVendorSettings cfg lic (resolvedBaseUrl cfg env)) }

/-- The diagnostic lines of `init()` that observe the entitlement state
(lines 28-36); the remaining `console.log` calls carry no claim-relevant
information and are omitted. -/
def initLog (lic : License) : List String :=
  ["AI Service init() called",
   "AI Assistant enabled: " ++ toString lic.isAiAssistantEnabled] ++
  (if lic.isAiAssistantEnabled then []
   else ["AI Assistant not enabled by license, but proceeding anyway for custom endpoint"])

/-! ## Lazy initialization guards

`chat`, `applySuggestion` and `askAi` re-run `init()` when **neither** handle
exists (`if (!this.client && !this.customHttpClient)`); `createFreeAiCredits`
re-runs it when the **vendor** handle is absent (`if (!this.client)`). -/

/-- Guard of lines 90, 152, 209. -/
def needsInit (s : AiState) : Bool :=
  s.client.isNone && s.customHttpClient.isNone

/-- State after the lazy-init step of `chat` / `applySuggestion` / `askAi`. -/
def afterEnsure (cfg : GlobalConfig) (env : EnvVars) (lic : License) (s : AiState) :
    AiState :=
  if needsInit s then initService cfg env lic s else s

/-- Number of `init()` runs (equivalently, client constructions — each
`init()` run constructs exactly one client) performed by the lazy-init step
of `chat` / `applySuggestion` / `askAi`. -/
def ensureCount (s : AiState) : Nat :=
  if needsInit s then 1 else 0

/-- State after the lazy-init step of `createFreeAiCredits` (line 266:
`if (!this.client)`). -/
def afterEnsureCredits (cfg : GlobalConfig) (env : EnvVars) (lic : License)
    (s : AiState) : AiState :=
  if s.client.isNone then initService cfg env lic s else s

/-- Number of `init()` runs performed by the lazy-init step of
`createFreeAiCredits`. -/
def ensureCountCredits (s : AiState) : Nat :=
  if s.client.isNone then 1 else 0

/-- The dispatch guard `this.useCustomEndpoint && this.customHttpClient`
(lines 98, 156, 213): the custom client, provided the flag is set. -/
def hcOf (s : AiState) : Option HttpClientConfig :=
  if s.useCustomEndpoint then s.customHttpClient else none

/-! ## Outbound payload construction (direct-endpoint mode) -/

/-- The model field of every outbound body:
`this.globalConfig.aiAssistant.model || process.env.N8N_AI_MODEL || 'gpt-3.5-turbo'`. -/
def outboundModel (cfg : GlobalConfig) (env : EnvVars) : String :=
  if resolvedModel cfg env = "" then "gpt-3.5-turbo" else resolvedModel cfg env

/-- JSON form of an `AiChatRequestDto` as `JSON.stringify` serializes it
(an absent `sessionId` is omitted; the key order of the runtime object is not
observed by any claim). -/
def chatDtoJson (p : AiChatRequestDto) : Json :=
  .obj ([("payload", p.payload)] ++
    (match p.sessionId with
     | some sid => [("sessionId", Json.str sid)]
     | none => []))

/-- JSON form of an `AiApplySuggestionRequestDto`. -/
def applyDtoJson (p : AiApplySuggestionRequestDto) : Json :=
  .obj [("sessionId", .str p.sessionId), ("suggestionId", .str p.suggestionId)]

/-- Outbound chat request (lines 107-119): one user-role message holding the
serialized payload. -/
def chatOutbound (cfg : GlobalConfig) (env : EnvVars) (payload : AiChatRequestDto)
    (user : IUser) : DirectRequest :=
  { path := "/v1/chat/completions"
    body :=
      { model := outboundModel cfg env
        messages := [{ role := "user", content := jsonStringify (chatDtoJson payload) }]
        stream := false
        user := user.id } }

/-- Outbound applySuggestion request (lines 165-182): a system instruction
plus a user-role message. -/
def applyOutbound (cfg : GlobalConfig) (env : EnvVars)
    (payload : AiApplySuggestionRequestDto) (user : IUser) : DirectRequest :=
  { path := "/v1/chat/completions"
    body :=
      { model := outboundModel cfg env
        messages :=
          [{ role := "system",
             content := "You are an AI assistant helping to apply code suggestions in n8n workflows. Apply the requested suggestion and return the updated parameters." },
           { role := "user",
             content := "Apply suggestion: " ++ jsonStringify (applyDtoJson payload) }]
        stream := false
        user := user.id } }

/-- Outbound askAi request (lines 222-239). -/
def askOutbound (cfg : GlobalConfig) (env : EnvVars) (payload : AiAskRequestDto)
    (user : IUser) : DirectRequest :=
  { path := "/v1/chat/completions"
    body :=
      { model := outboundModel cfg env
        messages :=
          [{ role := "system",
             content := "You are an AI assistant helping with n8n workflow automation. Answer the user\x27s question about their workflow or code." },
           { role := "user",
             content := "Question: " ++ payload.question ++ "\n\nContext: " ++
               jsonStringifyPretty payload.context ++ "\n\nFor node: " ++ payload.forNode }]
        stream := false
        user := user.id } }

/-! ## Response normalization (direct-endpoint mode) -/

/-- The optional-chaining read `aiResponse.choices?.[0]?.message?.content`. -/
def extractContent (r : OpenAIResponse) : Option String :=
  (((r.choices.bind List.head?).bind OpenAIChoice.message).bind OpenAIMessage.content)

/-- Modelled stand-in for the runtime `SyntaxError` message produced when
`JSON.parse` throws inside the applySuggestion try-block; no claim depends on
its exact text. -/
def jsonSyntaxErrorMsg : String := "Unexpected token in JSON"

/-- The wrapped error of the three catch blocks (lines 140-142, 197-199,
254-256): status falls back to the literal `Unknown` when absent (or `0`,
which is falsy), the server-provided `data.message` falls back to the raw
error message. -/
def customErrorMsg (status : Option Nat) (dataMessage : Option String)
    (message : String) : String :=
  "Custom AI service error: " ++
    (match status with
     | some n => if n = 0 then "Unknown" else toString n
     | none => "Unknown") ++
    " - " ++ jsTruthyOr dataMessage message

/-- Direct-endpoint chat (lines 100-143): post, then map the first choice's
content (falsy content falls back to the literal) into the n8n chat shape,
echoing the request's session id; transport failures become one wrapped
error. -/
def chatDirect (cfg : GlobalConfig) (env : EnvVars) (transport : Transport)
    (hc : HttpClientConfig) (payload : AiChatRequestDto) (user : IUser) :
    Except String ChatResponse :=
  match transport hc (chatOutbound cfg env payload user) with
  | .success data =>
      .ok { sessionId := payload.sessionId
            messages :=
              [{ role := "assistant", type := "message",
                 text := jsTruthyOr (extractContent data) "No response from AI service" }] }
  | .failure st dm m => .error (customErrorMsg st dm m)

/-- Direct-endpoint applySuggestion (lines 158-200):
`JSON.parse(content || '{}')` — an absent or empty content parses the literal
`{}`; a present but unparsable content makes `JSON.parse` throw inside the
try-block, so the catch wraps the syntax error (no `error.response`) into the
same `Custom AI service error` shape. -/
def applySuggestionDirect (cfg : GlobalConfig) (env : EnvVars) (transport : Transport)
    (hc : HttpClientConfig) (payload : AiApplySuggestionRequestDto) (user : IUser) :
    Except String ApplySuggestionResponse :=
  match transport hc (applyOutbound cfg env payload user) with
  | .success data =>
      match jsonParse (jsTruthyOr (extractContent data) "\x7b\x7d") with
      | some params => .ok { sessionId := payload.sessionId, parameters := params }
      | none => .error (customErrorMsg none none jsonSyntaxErrorMsg)
  | .failure st dm m => .error (customErrorMsg st dm m)

/-- Direct-endpoint askAi (lines 215-257): answer from the first choice's
content (with the fallback literal), `code` always the empty string. -/
def askAiDirect (cfg : GlobalConfig) (env : EnvVars) (transport : Transport)
    (hc : HttpClientConfig) (payload : AiAskRequestDto) (user : IUser) :
    Except String AskResponse :=
  match transport hc (askOutbound cfg env payload user) with
  | .success data =>
      .ok { answer := jsTruthyOr (extractContent data) "No response from AI service"
            code := "" }
  | .failure st dm m => .error (customErrorMsg st dm m)

/-! ## The four operations -/

/-- Result of one operation call: the updated instance state, the number of
`init()` (client-construction) runs performed, and the returned value or
thrown error. -/
structure OpResult (α : Type) where
  state : AiState
  inits : Nat
  result : Except String α

/-- Dispatch of `chat` after the lazy-init step (lines 98-148): direct branch
when the flag-guarded custom client exists, otherwise the assertion-guarded
vendor delegation with `{ id: user.id }`. -/
def chatDispatch (cfg : GlobalConfig) (env : EnvVars) (transport : Transport)
    (sdk : VendorSdk) (payload : AiChatRequestDto) (user : IUser) (s1 : AiState) :
    Except String ChatResponse :=
  match hcOf s1 with
  | some hc => chatDirect cfg env transport hc payload user
  | none =>
      match s1.client with
      | some cs => sdk.chat cs payload { id := user.id }
      | none => .error "Assistant client not setup"

/-- `chat(payload, user)` (lines 89-149). -/
def chatOp (cfg : GlobalConfig) (env : EnvVars) (lic : License) (transport : Transport)
    (sdk : VendorSdk) (payload : AiChatRequestDto) (user : IUser) (s : AiState) :
    OpResult ChatResponse :=
  { state := afterEnsure cfg env lic s
    inits := ensureCount s
    result := chatDispatch cfg env transport sdk payload user (afterEnsure cfg env lic s) }

/-- Dispatch of `applySuggestion` after the lazy-init step (lines 156-205). -/
def applySuggestionDispatch (cfg : GlobalConfig) (env : EnvVars) (transport : Transport)
    (sdk : VendorSdk) (payload : AiApplySuggestionRequestDto) (user : IUser)
    (s1 : AiState) : Except String ApplySuggestionResponse :=
  match hcOf s1 with
  | some hc => applySuggestionDirect cfg env transport hc payload user
  | none =>
      match s1.client with
      | some cs => sdk.applySuggestion cs payload { id := user.id }
      | none => .error "Assistant client not setup"

/-- `applySuggestion(payload, user)` (lines 151-206). -/
def applySuggestionOp (cfg : GlobalConfig) (env : EnvVars) (lic : License)
    (transport : Transport) (sdk : VendorSdk) (payload : AiApplySuggestionRequestDto)
    (user : IUser) (s : AiState) : OpResult ApplySuggestionResponse :=
  { state := afterEnsure cfg env lic s
    inits := ensureCount s
    result := applySuggestionDispatch cfg env transport sdk payload user
      (afterEnsure cfg env lic s) }

/-- Dispatch of `askAi` after the lazy-init step (lines 213-262). -/
def askAiDispatch (cfg : GlobalConfig) (env : EnvVars) (transport : Transport)
    (sdk : VendorSdk) (payload : AiAskRequestDto) (user : IUser) (s1 : AiState) :
    Except String AskResponse :=
  match hcOf s1 with
  | some hc => askAiDirect cfg env transport hc payload user
  | none =>
      match s1.client with
      | some cs => sdk.askAi cs payload { id := user.id }
      | none => .error "Assistant client not setup"

/-- `askAi(payload, user)` (lines 208-263). -/
def askAiOp (cfg : GlobalConfig) (env : EnvVars) (lic : License) (transport : Transport)
    (sdk : VendorSdk) (payload : AiAskRequestDto) (user : IUser) (s : AiState) :
    OpResult AskResponse :=
  { state := afterEnsure cfg env lic s
    inits := ensureCount s
    result := askAiDispatch cfg env transport sdk payload user (afterEnsure cfg env lic s) }

/-- Dispatch of `createFreeAiCredits` after its lazy-init step (lines
269-271): `assert(this.client, 'Assistant client not setup')`, then
delegation passing the **whole** `user` object (not `{ id: user.id }`). -/
def creditsDispatch (sdk : VendorSdk) (user : IUser) (s1 : AiState) :
    Except String Json :=
  match s1.client with
  | some cs => sdk.generateAiCreditsCredentials cs user
  | none => .error "Assistant client not setup"

/-- `createFreeAiCredits(user)` (lines 265-272): lazy-init keyed on the
vendor handle only (`if (!this.client)`), never on the custom one. -/
def createFreeAiCreditsOp (cfg : GlobalConfig) (env : EnvVars) (lic : License)
    (sdk : VendorSdk) (user : IUser) (s : AiState) : OpResult Json :=
  { state := afterEnsureCredits cfg env lic s
    inits := ensureCountCredits s
    result := creditsDispatch sdk user (afterEnsureCredits cfg env lic s) }

/-! ## Operation sequences -/

/-- One call of one of the four operations, with its arguments. -/
inductive OpCall where
  | chat (payload : AiChatRequestDto) (user : IUser)
  | applySuggestion (payload : AiApplySuggestionRequestDto) (user : IUser)
  | askAi (payload : AiAskRequestDto) (user : IUser)
  | credits (user : IUser)

/-- Whether an `OpCall` is a `createFreeAiCredits` call. -/
def OpCall.isCredits : OpCall → Bool
  | .credits _ => true
  | _ => false

/-- State transition and construction count of one operation call. -/
def runOpFull (cfg : GlobalConfig) (env : EnvVars) (lic : License)
    (transport : Transport) (sdk : VendorSdk) : OpCall → AiState → AiState × Nat
  | .chat p u, s =>
      ((chatOp cfg env lic transport sdk p u s).state,
       (chatOp cfg env lic transport sdk p u s).inits)
  | .applySuggestion p u, s =>
      ((applySuggestionOp cfg env lic transport sdk p u s).state,
       (applySuggestionOp cfg env lic transport sdk p u s).inits)
  | .askAi p u, s =>
      ((askAiOp cfg env lic transport sdk p u s).state,
       (askAiOp cfg env lic transport sdk p u s).inits)
  | .credits u, s =>
      ((createFreeAiCreditsOp cfg env lic sdk u s).state,
       (createFreeAiCreditsOp cfg env lic sdk u s).inits)

/-- State transition of one operation call. -/
def runOp (cfg : GlobalConfig) (env : EnvVars) (lic : License) (transport : Transport)
    (sdk : VendorSdk) (op : OpCall) (s : AiState) : AiState :=
  (runOpFull cfg env lic transport sdk op s).1

/-- Construction count of one operation call. -/
def opInits (cfg : GlobalConfig) (env : EnvVars) (lic : License) (transport : Transport)
    (sdk : VendorSdk) (op : OpCall) (s : AiState) : Nat :=
  (runOpFull cfg env lic transport sdk op s).2

/-- State after a sequence of operation calls. -/
def runOps (cfg : GlobalConfig) (env : EnvVars) (lic : License) (transport : Transport)
    (sdk : VendorSdk) (l : List OpCall) (s : AiState) : AiState :=
  l.foldl (fun t op => runOp cfg env lic transport sdk op t) s

/-- The §3 invariant: at most one of the two client handles is populated. -/
def atMostOneClient (s : AiState) : Prop :=
  s.client = none ∨ s.customHttpClient = none

instance (s : AiState) : Decidable (atMostOneClient s) :=
  inferInstanceAs (Decidable (_ ∨ _))

/-- Substring containment, for error-message claims. -/
def containsStr (hay needle : String) : Prop :=
  ∃ p q, hay = p ++ needle ++ q

/-- The invariant that ties reachable states to the fixed configuration:
under a valid endpoint configuration `init()` only ever constructs the custom
client, under an invalid one only ever the vendor client. -/
def StateInv (cfg : GlobalConfig) (env : EnvVars) (s : AiState) : Prop :=
  (configValid cfg env → s.client = none) ∧
  (¬ configValid cfg env → s.customHttpClient = none)

/-! ## Concrete fixtures for witnesses and counterexamples -/

/-- A configuration whose structured fields already make the endpoint
configuration valid. -/
def cfgDirect : GlobalConfig :=
  { aiAssistant := { baseUrl := "https://ai.example", apiKey := "k1", model := "m1" }
    logging := { level := "info" } }

/-- A configuration with every endpoint field empty. -/
def cfgEmpty : GlobalConfig :=
  { aiAssistant := { baseUrl := "", apiKey := "", model := "" }
    logging := { level := "info" } }

/-- An environment with none of the three fallback variables set. -/
def envNone : EnvVars :=
  { N8N_AI_ASSISTANT_BASE_URL := none
    N8N_AI_ASSISTANT_API_KEY := none
    N8N_AI_MODEL := none }

/-- An environment providing base URL and API key (used to exercise the
environment tier of the lookup). -/
def envFallback : EnvVars :=
  { N8N_AI_ASSISTANT_BASE_URL := some "https://env.example"
    N8N_AI_ASSISTANT_API_KEY := some "envkey"
    N8N_AI_MODEL := none }

def licTest : License :=
  { isAiAssistantEnabled := true, certStr := "cert", consumerId := "cid" }

def hcTest : HttpClientConfig :=
  { baseURL := "https://ai.example", headers := [], timeout := 30000 }

def vsTest : VendorClientSettings :=
  { licenseCert := "cert", consumerId := "cid", n8nVersion := N8N_VERSION
    baseUrl := "", logLevel := "info" }

/-- A direct-endpoint state: custom client present, flag set, no vendor
client. -/
def stateDirect : AiState :=
  { client := none, customHttpClient := some hcTest, useCustomEndpoint := true }

/-- A vendor-managed state: vendor client present, no custom client. -/
def stateVendor : AiState :=
  { client := some vsTest, customHttpClient := none, useCustomEndpoint := false }

def userA : IUser := { id := "u1", email := "a@example.com" }

/-- Same id as `userA`, different remaining fields. -/
def userB : IUser := { id := "u1", email := "b@example.com" }

def chatReqTest : AiChatRequestDto :=
  { payload := .obj [("text", .str "hi")], sessionId := some "s1" }

def applyReqTest : AiApplySuggestionRequestDto :=
  { sessionId := "s1", suggestionId := "sg1" }

def askReqTest : AiAskRequestDto :=
  { question := "why", context := .obj [], forNode := "Node1" }

/-- A backend response whose first choice carries the given content. -/
def respWithContent (c : String) : OpenAIResponse :=
  { choices := some [{ message := some { content := some c } }] }

/-- A backend response with no `choices` field at all. -/
def respNoChoices : OpenAIResponse :=
  { choices := none }

/-- A transport that returns the same result for every request. -/
def transportConst (t : TransportResult) : Transport :=
  fun _ _ => t

/-- A vendor SDK instance whose methods record which arguments reached them;
`generateAiCreditsCredentials` inspects a non-id user field, making the shape
of the delegated user argument observable. -/
def sdkTest : VendorSdk :=
  { chat := fun _ p u =>
      .ok { sessionId := p.sessionId
            messages := [{ role := "assistant", type := "message", text := "vendor:" ++ u.id }] }
    applySuggestion := fun _ p u =>
      .ok { sessionId := p.sessionId, parameters := .str ("vendor:" ++ u.id) }
    askAi := fun _ _ u => .ok { answer := "vendor:" ++ u.id, code := "" }
    generateAiCreditsCredentials := fun _ u => .ok (.str u.email) }

/-! ## Helper lemmas -/

theorem afterEnsure_of_custom (cfg : GlobalConfig) (env : EnvVars) (lic : License)
    {s : AiState} {hc : HttpClientConfig} (h : s.customHttpClient = some hc) :
    afterEnsure cfg env lic s = s := by
  simp [afterEnsure, needsInit, h]

theorem ensureCount_of_custom {s : AiState} {hc : HttpClientConfig}
    (h : s.customHttpClient = some hc) : ensureCount s = 0 := by
  simp [ensureCount, needsInit, h]

theorem afterEnsure_of_client (cfg : GlobalConfig) (env : EnvVars) (lic : License)
    {s : AiState} {cs : VendorClientSettings} (h : s.client = some cs) :
    afterEnsure cfg env lic s = s := by
  simp [afterEnsure, needsInit, h]

theorem afterEnsureCredits_of_client (cfg : GlobalConfig) (env : EnvVars) (lic : License)
    {s : AiState} {cs : VendorClientSettings} (h : s.client = some cs) :
    afterEnsureCredits cfg env lic s = s := by
  simp [afterEnsureCredits, h]

theorem initService_of_valid (cfg : GlobalConfig) (env : EnvVars) (lic : License)
    (s : AiState) (h : configValid cfg env) :
    initService cfg env lic s =
      { s with
          useCustomEndpoint := true
          customHttpClient := some (mkDirectHttpClient (resolvedBaseUrl cfg env)
            (resolvedApiKey cfg env) (resolvedModel cfg env)) } := by
  unfold initService
  exact if_pos h

theorem initService_of_invalid (cfg : GlobalConfig) (env : EnvVars) (lic : License)
    (s : AiState) (h : ¬ configValid cfg env) :
    initService cfg env lic s =
      { s with client := some (mkVendorSettings cfg lic (resolvedBaseUrl cfg env)) } := by
  unfold initService
  exact if_neg h

theorem needsInit_initService (cfg : GlobalConfig) (env : EnvVars) (lic : License)
    (s : AiState) : needsInit (initService cfg env lic s) = false := by
  by_cases h : configValid cfg env
  · rw [initService_of_valid cfg env lic s h]; simp [needsInit]
  · rw [initService_of_invalid cfg env lic s h]; simp [needsInit]

theorem ensureCount_afterEnsure (cfg : GlobalConfig) (env : EnvVars) (lic : License)
    (s : AiState) : ensureCount (afterEnsure cfg env lic s) = 0 := by
  unfold afterEnsure
  by_cases h : needsInit s
  · simp [h, ensureCount, needsInit_initService]
  · simp [h, ensureCount]

theorem ensureCountCredits_afterEnsureCredits_of_invalid (cfg : GlobalConfig)
    (env : EnvVars) (lic : License) (s : AiState) (h : ¬ configValid cfg env) :
    ensureCountCredits (afterEnsureCredits cfg env lic s) = 0 := by
  unfold afterEnsureCredits
  by_cases hc : s.client.isNone
  · simp [hc, ensureCountCredits, initService_of_invalid cfg env lic s h]
  · simp [hc, ensureCountCredits]

theorem stateInv_initState (cfg : GlobalConfig) (env : EnvVars) :
    StateInv cfg env initState :=
  ⟨fun _ => rfl, fun _ => rfl⟩

theorem stateInv_initService (cfg : GlobalConfig) (env : EnvVars) (lic : License)
    {s : AiState} (h : StateInv cfg env s) :
    StateInv cfg env (initService cfg env lic s) := by
  by_cases hv : configValid cfg env
  · rw [initService_of_valid cfg env lic s hv]
    exact ⟨fun _ => h.1 hv, fun hn => absurd hv hn⟩
  · rw [initService_of_invalid cfg env lic s hv]
    exact ⟨fun hvv => absurd hvv hv, fun _ => h.2 hv⟩

theorem stateInv_afterEnsure (cfg : GlobalConfig) (env : EnvVars) (lic : License)
    {s : AiState} (h : StateInv cfg env s) :
    StateInv cfg env (afterEnsure cfg env lic s) := by
  unfold afterEnsure
  split
  · exact stateInv_initService cfg env lic h
  · exact h

theorem stateInv_afterEnsureCredits (cfg : GlobalConfig) (env : EnvVars) (lic : License)
    {s : AiState} (h : StateInv cfg env s) :
    StateInv cfg env (afterEnsureCredits cfg env lic s) := by
  unfold afterEnsureCredits
  split
  · exact stateInv_initService cfg env lic h
  · exact h

theorem stateInv_runOp (cfg : GlobalConfig) (env : EnvVars) (lic : License)
    (transport : Transport) (sdk : VendorSdk) (op : OpCall) {s : AiState}
    (h : StateInv cfg env s) :
    StateInv cfg env (runOp cfg env lic transport sdk op s) := by
  cases op <;>
    simp only [runOp, runOpFull, chatOp, applySuggestionOp, askAiOp,
      createFreeAiCreditsOp] <;>
    first
      | exact stateInv_afterEnsure cfg env lic h
      | exact stateInv_afterEnsureCredits cfg env lic h

theorem stateInv_runOps (cfg : GlobalConfig) (env : EnvVars) (lic : License)
    (transport : Transport) (sdk : VendorSdk) (l : List OpCall) {s : AiState}
    (h : StateInv cfg env s) :
    StateInv cfg env (runOps cfg env lic transport sdk l s) := by
  induction l generalizing s with
  | nil => exact h
  | cons op rest ih =>
      exact ih (stateInv_runOp cfg env lic transport sdk op h)

theorem atMostOneClient_of_stateInv {cfg : GlobalConfig} {env : EnvVars} {s : AiState}
    (h : StateInv cfg env s) : atMostOneClient s := by
  by_cases hv : configValid cfg env
  · exact Or.inl (h.1 hv)
  · exact Or.inr (h.2 hv)

theorem chatOp_result_direct (cfg : GlobalConfig) (env : EnvVars) (lic : License)
    (transport : Transport) (sdk : VendorSdk) (payload : AiChatRequestDto)
    (user : IUser) {s : AiState} {hc : HttpClientConfig}
    (hflag : s.useCustomEndpoint = true) (hhc : s.customHttpClient = some hc) :
    (chatOp cfg env lic transport sdk payload user s).result =
      chatDirect cfg env transport hc payload user := by
  simp [chatOp, chatDispatch, afterEnsure_of_custom cfg env lic hhc, hcOf, hflag, hhc]

theorem applySuggestionOp_result_direct (cfg : GlobalConfig) (env : EnvVars)
    (lic : License) (transport : Transport) (sdk : VendorSdk)
    (payload : AiApplySuggestionRequestDto) (user : IUser) {s : AiState}
    {hc : HttpClientConfig} (hflag : s.useCustomEndpoint = true)
    (hhc : s.customHttpClient = some hc) :
    (applySuggestionOp cfg env lic transport sdk payload user s).result =
      applySuggestionDirect cfg env transport hc payload user := by
  simp [applySuggestionOp, applySuggestionDispatch,
    afterEnsure_of_custom cfg env lic hhc, hcOf, hflag, hhc]

theorem askAiOp_result_direct (cfg : GlobalConfig) (env : EnvVars) (lic : License)
    (transport : Transport) (sdk : VendorSdk) (payload : AiAskRequestDto)
    (user : IUser) {s : AiState} {hc : HttpClientConfig}
    (hflag : s.useCustomEndpoint = true) (hhc : s.customHttpClient = some hc) :
    (askAiOp cfg env lic transport sdk payload user s).result =
      askAiDirect cfg env transport hc payload user := by
  simp [askAiOp, askAiDispatch, afterEnsure_of_custom cfg env lic hhc, hcOf, hflag, hhc]

/-! ## Claim theorems -/

/-- C1: for every configuration whose two-tier resolved baseUrl and apiKey
are both non-empty, `init()` selects DirectEndpoint mode — it sets the
custom-endpoint flag and constructs the custom axios client (and no vendor
client); for every configuration in which either resolved field is empty it
selects VendorManaged mode — it constructs the vendor `AiAssistantClient`
(and no custom client, flag unset). -/
theorem C1_init_mode_selection (cfg : GlobalConfig) (env : EnvVars) (lic : License) :
    (configValid cfg env →
      (initService cfg env lic initState).useCustomEndpoint = true ∧
      (initService cfg env lic initState).customHttpClient =
        some (mkDirectHttpClient (resolvedBaseUrl cfg env) (resolvedApiKey cfg env)
          (resolvedModel cfg env)) ∧
      (initService cfg env lic initState).client = none) ∧
    (¬ configValid cfg env →
      (initService cfg env lic initState).client =
        some (mkVendorSettings cfg lic (resolvedBaseUrl cfg env)) ∧
      (initService cfg env lic initState).customHttpClient = none ∧
      (initService cfg env lic initState).useCustomEndpoint = false) := by
  constructor
  · intro h
    rw [initService_of_valid cfg env lic initState h]
    exact ⟨rfl, rfl, rfl⟩
  · intro h
    rw [initService_of_invalid cfg env lic initState h]
    exact ⟨rfl, rfl, rfl⟩

/-- C1 witness: the direct branch at a concrete valid configuration, and the
vendor branch at the all-empty configuration. -/
theorem C1_init_mode_selection_witness :
    ((initService cfgDirect envNone licTest initState).useCustomEndpoint = true ∧
     (initService cfgDirect envNone licTest initState).customHttpClient =
       some (mkDirectHttpClient (resolvedBaseUrl cfgDirect envNone)
         (resolvedApiKey cfgDirect envNone) (resolvedModel cfgDirect envNone)) ∧
     (initService cfgDirect envNone licTest initState).client = none) ∧
    ((initService cfgEmpty envNone licTest initState).client =
       some (mkVendorSettings cfgEmpty licTest (resolvedBaseUrl cfgEmpty envNone)) ∧
     (initService cfgEmpty envNone licTest initState).customHttpClient = none ∧
     (initService cfgEmpty envNone licTest initState).useCustomEndpoint = false) :=
  ⟨(C1_init_mode_selection cfgDirect envNone licTest).1 (by decide),
   (C1_init_mode_selection cfgEmpty envNone licTest).2 (by decide)⟩

/-- C4: in DirectEndpoint mode, a transport failure with HTTP status 500 and
response body message `boom` makes each of `chat`, `applySuggestion` and
`askAi` fail with the single wrapped error `Custom AI service error: 500 -
boom`, whose text contains both `500` and `boom`; no partial result is
returned. -/
theorem C4_transport_failure_wrapped (cfg : GlobalConfig) (env : EnvVars) (lic : License)
    (transport : Transport) (sdk : VendorSdk) (chatReq : AiChatRequestDto)
    (applyReq : AiApplySuggestionRequestDto) (askReq : AiAskRequestDto) (user : IUser)
    (s : AiState) (hc : HttpClientConfig) (m : String)
    (hflag : s.useCustomEndpoint = true) (hhc : s.customHttpClient = some hc)
    (hfail : ∀ req, transport hc req = .failure (some 500) (some "boom") m) :
    (chatOp cfg env lic transport sdk chatReq user s).result =
      .error "Custom AI service error: 500 - boom" ∧
    (applySuggestionOp cfg env lic transport sdk applyReq user s).result =
      .error "Custom AI service error: 500 - boom" ∧
    (askAiOp cfg env lic transport sdk askReq user s).result =
      .error "Custom AI service error: 500 - boom" ∧
    containsStr "Custom AI service error: 500 - boom" "500" ∧
    containsStr "Custom AI service error: 500 - boom" "boom" := by
  have hmsg : customErrorMsg (some 500) (some "boom") m =
      "Custom AI service error: 500 - boom" := by
    simp [customErrorMsg, jsTruthyOr]
    decide
  refine ⟨?_, ?_, ?_,
    ⟨"Custom AI service error: ", " - boom", by decide⟩,
    ⟨"Custom AI service error: 500 - ", "", by decide⟩⟩
  · rw [chatOp_result_direct cfg env lic transport sdk chatReq user hflag hhc]
    simp [chatDirect, hfail, hmsg]
  · rw [applySuggestionOp_result_direct cfg env lic transport sdk applyReq user hflag hhc]
    simp [applySuggestionDirect, hfail, hmsg]
  · rw [askAiOp_result_direct cfg env lic transport sdk askReq user hflag hhc]
    simp [askAiDirect, hfail, hmsg]

/-- C4 witness: concrete direct-mode state and a transport that always fails
with status 500 and body message `boom`. -/
theorem C4_transport_failure_wrapped_witness :
    (chatOp cfgDirect envNone licTest
        (transportConst (.failure (some 500) (some "boom") "Request failed"))
        sdkTest chatReqTest userA stateDirect).result =
      .error "Custom AI service error: 500 - boom" ∧
    (applySuggestionOp cfgDirect envNone licTest
        (transportConst (.failure (some 500) (some "boom") "Request failed"))
        sdkTest applyReqTest userA stateDirect).result =
      .error "Custom AI service error: 500 - boom" ∧
    (askAiOp cfgDirect envNone licTest
        (transportConst (.failure (some 500) (some "boom") "Request failed"))
        sdkTest askReqTest userA stateDirect).result =
      .error "Custom AI service error: 500 - boom" ∧
    containsStr "Custom AI service error: 500 - boom" "500" ∧
    containsStr "Custom AI service error: 500 - boom" "boom" :=
  C4_transport_failure_wrapped cfgDirect envNone licTest
    (transportConst (.failure (some 500) (some "boom") "Request failed"))
    sdkTest chatReqTest applyReqTest askReqTest userA stateDirect hcTest
    "Request failed" rfl rfl (fun _ => rfl)

/-- C8: `createFreeAiCredits` invoked in DirectEndpoint mode (valid endpoint
configuration, custom client present, flag set) with no vendor client fails
with the setup assertion `Assistant client not setup`; its re-run of `init()`
reconstructs only the custom client, so no vendor client appears and no
direct-endpoint call is attempted (the operation takes no transport at
all). -/
theorem C8_credits_vendor_only (cfg : GlobalConfig) (env : EnvVars) (lic : License)
    (sdk : VendorSdk) (user : IUser) (s : AiState) (hc : HttpClientConfig)
    (hvalid : configValid cfg env) (hflag : s.useCustomEndpoint = true)
    (hhc : s.customHttpClient = some hc) (hclient : s.client = none) :
    (createFreeAiCreditsOp cfg env lic sdk user s).result =
      .error "Assistant client not setup" ∧
    (createFreeAiCreditsOp cfg env lic sdk user s).state.client = none := by
  have h1 : afterEnsureCredits cfg env lic s = initService cfg env lic s := by
    simp [afterEnsureCredits, hclient]
  have h2 : (initService cfg env lic s).client = none := by
    rw [initService_of_valid cfg env lic s hvalid]
    exact hclient
  constructor
  · simp [createFreeAiCreditsOp, creditsDispatch, h1, h2]
  · simp [createFreeAiCreditsOp, h1, h2]

/-- C8 witness: the concrete direct-mode state under the valid concrete
configuration. -/
theorem C8_credits_vendor_only_witness :
    (createFreeAiCreditsOp cfgDirect envNone licTest sdkTest userA stateDirect).result =
      .error "Assistant client not setup" ∧
    (createFreeAiCreditsOp cfgDirect envNone licTest sdkTest userA stateDirect).state.client =
      none :=
  C8_credits_vendor_only cfgDirect envNone licTest sdkTest userA stateDirect hcTest
    (by decide) rfl rfl rfl

/-- C9: under a valid endpoint configuration, the constructed direct HTTP
client's default headers carry the `X-Model` header with the resolved model
as value exactly when the resolved model is non-empty, and any `X-Model`
header present carries that value. -/
theorem C9_model_header (cfg : GlobalConfig) (env : EnvVars) (lic : License)
    (hvalid : configValid cfg env) :
    ∃ hc, (initService cfg env lic initState).customHttpClient = some hc ∧
      ((("X-Model", resolvedModel cfg env) ∈ hc.headers) ↔ resolvedModel cfg env ≠ "") ∧
      (∀ v, ("X-Model", v) ∈ hc.headers → v = resolvedModel cfg env) := by
  rw [initService_of_valid cfg env lic initState hvalid]
  refine ⟨_, rfl, ?_, ?_⟩
  · by_cases hm : resolvedModel cfg env = ""
    · simp [mkDirectHttpClient, hm]
    · simp [mkDirectHttpClient, hm]
  · intro v hv
    by_cases hm : resolvedModel cfg env = ""
    · exfalso
      simp [mkDirectHttpClient, hm] at hv
    · simp [mkDirectHttpClient, hm] at hv
      exact hv

/-- C9 witness: the concrete valid configuration with model `m1`. -/
theorem C9_model_header_witness :
    ∃ hc, (initService cfgDirect envNone licTest initState).customHttpClient = some hc ∧
      ((("X-Model", resolvedModel cfgDirect envNone) ∈ hc.headers) ↔
        resolvedModel cfgDirect envNone ≠ "") ∧
      (∀ v, ("X-Model", v) ∈ hc.headers → v = resolvedModel cfgDirect envNone) :=
  C9_model_header cfgDirect envNone licTest (by decide)

/-- C10: two runs of `init()` that differ only in the entitlement check
`isAiAssistantEnabled()` produce the same state — same mode flag and same
constructed client handle — while the entitlement value is observed in the
diagnostic log. -/
theorem C10_entitlement_not_enforced (cfg : GlobalConfig) (env : EnvVars) (lic : License)
    (b1 b2 : Bool) (s : AiState) :
    initService cfg env { lic with isAiAssistantEnabled := b1 } s =
      initService cfg env { lic with isAiAssistantEnabled := b2 } s ∧
    ("AI Assistant enabled: " ++ toString b1) ∈
      initLog { lic with isAiAssistantEnabled := b1 } := by
  refine ⟨rfl, ?_⟩
  simp [initLog]

/-- C2 counterexample: a backend response whose `choices[0].message.content`
**is present and equal to the empty string** — so the claim requires
`messages[0].text = ""` — yet `chat()` returns the fallback literal, because
the JavaScript `||` treats the empty string as falsy. -/
theorem C2_chat_empty_content_counterexample :
    (chatOp cfgDirect envNone licTest (transportConst (.success (respWithContent "")))
        sdkTest chatReqTest userA stateDirect).result =
      .ok { sessionId := some "s1"
            messages := [{ role := "assistant", type := "message",
                           text := "No response from AI service" }] } ∧
    "No response from AI service" ≠ "" :=
  ⟨rfl, by decide⟩

/-- C2 (amended): in DirectEndpoint mode, when the backend response carries
`choices[0].message.content = X` with `X` **non-empty**, `chat()` returns
exactly one assistant message of type `message` with text `X` and echoes the
request's sessionId unchanged; when the response has no `choices` (and, more
generally, whenever the extracted content is absent or empty), it returns the
same shape with the literal fallback text instead of throwing. -/
theorem C2_chat_direct_normalization (cfg : GlobalConfig) (env : EnvVars) (lic : License)
    (transport : Transport) (sdk : VendorSdk) (payload : AiChatRequestDto) (user : IUser)
    (s : AiState) (hc : HttpClientConfig) (r : OpenAIResponse)
    (hflag : s.useCustomEndpoint = true) (hhc : s.customHttpClient = some hc)
    (hresp : transport hc (chatOutbound cfg env payload user) = .success r) :
    (∀ x, extractContent r = some x → x ≠ "" →
      (chatOp cfg env lic transport sdk payload user s).result =
        .ok { sessionId := payload.sessionId
              messages := [{ role := "assistant", type := "message", text := x }] }) ∧
    (r.choices = none →
      (chatOp cfg env lic transport sdk payload user s).result =
        .ok { sessionId := payload.sessionId
              messages := [{ role := "assistant", type := "message",
                             text := "No response from AI service" }] }) := by
  constructor
  · intro x hx hxne
    rw [chatOp_result_direct cfg env lic transport sdk payload user hflag hhc]
    simp [chatDirect, hresp, hx, jsTruthyOr, hxne]
  · intro hchoices
    have hext : extractContent r = none := by simp [extractContent, hchoices]
    rw [chatOp_result_direct cfg env lic transport sdk payload user hflag hhc]
    simp [chatDirect, hresp, hext, jsTruthyOr]

/-- C2 witness: concrete direct-mode state, backend content `Hello`. -/
theorem C2_chat_direct_normalization_witness :
    (chatOp cfgDirect envNone licTest (transportConst (.success (respWithContent "Hello")))
        sdkTest chatReqTest userA stateDirect).result =
      .ok { sessionId := some "s1"
            messages := [{ role := "assistant", type := "message", text := "Hello" }] } :=
  (C2_chat_direct_normalization cfgDirect envNone licTest
      (transportConst (.success (respWithContent "Hello"))) sdkTest chatReqTest userA
      stateDirect hcTest (respWithContent "Hello") rfl rfl rfl).1 "Hello" rfl (by decide)

/-- C3 counterexample: with present but unparsable backend content
`not json`, `applySuggestion()` does **not** return an empty-object
parameters value — `JSON.parse` throws inside the try-block and the catch
re-throws the wrapped error, so the call fails. -/
theorem C3_apply_unparsable_counterexample :
    (applySuggestionOp cfgDirect envNone licTest
        (transportConst (.success (respWithContent "not json")))
        sdkTest applyReqTest userA stateDirect).result =
      .error (customErrorMsg none none jsonSyntaxErrorMsg) ∧
    jsonParse "not json" = none :=
  ⟨rfl, rfl⟩

/-- C3 (amended): in DirectEndpoint mode, `applySuggestion()` with backend
content `'\x7b"a":1\x7d'` returns parameters `\x7ba: 1\x7d`; with content
**absent** (or empty, both falsy) it returns the empty object without
throwing; with content present but not parsable as JSON, `JSON.parse` throws
inside the try-block and the call fails with the wrapped
`Custom AI service error` rather than returning an empty object. -/
theorem C3_apply_direct_parsing (cfg : GlobalConfig) (env : EnvVars) (lic : License)
    (transport : Transport) (sdk : VendorSdk) (payload : AiApplySuggestionRequestDto)
    (user : IUser) (s : AiState) (hc : HttpClientConfig) (r : OpenAIResponse)
    (hflag : s.useCustomEndpoint = true) (hhc : s.customHttpClient = some hc)
    (hresp : transport hc (applyOutbound cfg env payload user) = .success r) :
    (extractContent r = some "\x7b\"a\":1\x7d" →
      (applySuggestionOp cfg env lic transport sdk payload user s).result =
        .ok { sessionId := payload.sessionId, parameters := .obj [("a", .num 1)] }) ∧
    (extractContent r = none →
      (applySuggestionOp cfg env lic transport sdk payload user s).result =
        .ok { sessionId := payload.sessionId, parameters := .obj [] }) ∧
    (∀ c, extractContent r = some c → c ≠ "" → jsonParse c = none →
      (applySuggestionOp cfg env lic transport sdk payload user s).result =
        .error (customErrorMsg none none jsonSyntaxErrorMsg)) := by
  refine ⟨?_, ?_, ?_⟩
  · intro hx
    rw [applySuggestionOp_result_direct cfg env lic transport sdk payload user hflag hhc]
    simp [applySuggestionDirect, hresp, hx, jsTruthyOr,
      show jsonParse "\x7b\"a\":1\x7d" = some (Json.obj [("a", Json.num 1)]) from rfl]
  · intro hx
    rw [applySuggestionOp_result_direct cfg env lic transport sdk payload user hflag hhc]
    simp [applySuggestionDirect, hresp, hx, jsTruthyOr,
      show jsonParse "\x7b\x7d" = some (Json.obj []) from rfl]
  · intro c hx hcne hparse
    rw [applySuggestionOp_result_direct cfg env lic transport sdk payload user hflag hhc]
    simp [applySuggestionDirect, hresp, hx, jsTruthyOr, hcne, hparse]

/-- C3 witness: concrete direct-mode state, backend content `'\x7b"a":1\x7d'`
mapped to the parameters object `\x7ba: 1\x7d`. -/
theorem C3_apply_direct_parsing_witness :
    (applySuggestionOp cfgDirect envNone licTest
        (transportConst (.success (respWithContent "\x7b\"a\":1\x7d")))
        sdkTest applyReqTest userA stateDirect).result =
      .ok { sessionId := "s1", parameters := .obj [("a", .num 1)] } :=
  (C3_apply_direct_parsing cfgDirect envNone licTest
      (transportConst (.success (respWithContent "\x7b\"a\":1\x7d"))) sdkTest applyReqTest
      userA stateDirect hcTest (respWithContent "\x7b\"a\":1\x7d") rfl rfl rfl).1 rfl

/-- C5 counterexample: starting uninitialized under a valid direct-endpoint
configuration, two consecutive `createFreeAiCredits()` calls each run the
client-construction step — the first `init()` constructs only the custom
client, leaving `this.client` unset, so the second call re-runs `init()`:
two constructions, not at most one. -/
theorem C5_credits_double_init_counterexample :
    (createFreeAiCreditsOp cfgDirect envNone licTest sdkTest userA initState).inits +
      (createFreeAiCreditsOp cfgDirect envNone licTest sdkTest userA
        (createFreeAiCreditsOp cfgDirect envNone licTest sdkTest userA initState).state).inits
      = 2 ∧
    ¬ ((createFreeAiCreditsOp cfgDirect envNone licTest sdkTest userA initState).inits +
      (createFreeAiCreditsOp cfgDirect envNone licTest sdkTest userA
        (createFreeAiCreditsOp cfgDirect envNone licTest sdkTest userA initState).state).inits
      ≤ 1) :=
  ⟨rfl, by decide⟩

/-- C5 (amended): two consecutive calls of the same operation perform at most
one client construction, **except** `createFreeAiCredits` under a valid
direct-endpoint configuration with no vendor client populated: for `chat`,
`applySuggestion` and `askAi` this holds from every state, and for
`createFreeAiCredits` it holds whenever a vendor client exists or the
resolved configuration is invalid. -/
theorem C5_idempotent_construction (cfg : GlobalConfig) (env : EnvVars) (lic : License)
    (transport : Transport) (sdk : VendorSdk) (op : OpCall) (s : AiState)
    (h : op.isCredits = false ∨ (∃ cs, s.client = some cs) ∨ ¬ configValid cfg env) :
    opInits cfg env lic transport sdk op s +
      opInits cfg env lic transport sdk op (runOp cfg env lic transport sdk op s) ≤ 1 := by
  cases op with
  | chat p u =>
      have h2 := ensureCount_afterEnsure cfg env lic s
      simp only [opInits, runOp, runOpFull, chatOp, h2, Nat.add_zero]
      unfold ensureCount
      split <;> decide
  | applySuggestion p u =>
      have h2 := ensureCount_afterEnsure cfg env lic s
      simp only [opInits, runOp, runOpFull, applySuggestionOp, h2, Nat.add_zero]
      unfold ensureCount
      split <;> decide
  | askAi p u =>
      have h2 := ensureCount_afterEnsure cfg env lic s
      simp only [opInits, runOp, runOpFull, askAiOp, h2, Nat.add_zero]
      unfold ensureCount
      split <;> decide
  | credits u =>
      rcases h with h | ⟨cs, hcs⟩ | hnv
      · simp [OpCall.isCredits] at h
      · simp [opInits, runOp, runOpFull, createFreeAiCreditsOp, ensureCountCredits,
          afterEnsureCredits, hcs]
      · have h2 := ensureCountCredits_afterEnsureCredits_of_invalid cfg env lic s hnv
        simp only [opInits, runOp, runOpFull, createFreeAiCreditsOp, h2, Nat.add_zero]
        unfold ensureCountCredits
        split <;> decide

/-- C5 witness: two consecutive `chat` calls from the uninitialized state. -/
theorem C5_idempotent_construction_witness :
    opInits cfgDirect envNone licTest (transportConst (.success respNoChoices)) sdkTest
        (.chat chatReqTest userA) initState +
      opInits cfgDirect envNone licTest (transportConst (.success respNoChoices)) sdkTest
        (.chat chatReqTest userA)
        (runOp cfgDirect envNone licTest (transportConst (.success respNoChoices)) sdkTest
          (.chat chatReqTest userA) initState) ≤ 1 :=
  C5_idempotent_construction cfgDirect envNone licTest
    (transportConst (.success respNoChoices)) sdkTest (.chat chatReqTest userA) initState
    (Or.inl rfl)

/-- C6 counterexample: a starting state satisfying the at-most-one invariant
(direct client populated, vendor client absent) from which one
`createFreeAiCredits` call under a fixed all-empty configuration reaches the
forbidden both-present state: the credits guard ignores the custom client and
re-runs `init()`, which now takes the vendor branch. -/
theorem C6_both_present_counterexample :
    atMostOneClient stateDirect ∧
    ¬ atMostOneClient
        (runOp cfgEmpty envNone licTest (transportConst (.success respNoChoices)) sdkTest
          (.credits userA) stateDirect) := by
  constructor
  · decide
  · decide

/-- C6 (amended): for every fixed configuration and every sequence of the
four operations executed from the uninitialized state, every reached state
populates at most one of the two client handles; the both-present state is
unreachable from the pre-initialization state. -/
theorem C6_at_most_one_client (cfg : GlobalConfig) (env : EnvVars) (lic : License)
    (transport : Transport) (sdk : VendorSdk) (l : List OpCall) :
    atMostOneClient (runOps cfg env lic transport sdk l initState) :=
  atMostOneClient_of_stateInv
    (stateInv_runOps cfg env lic transport sdk l (stateInv_initState cfg env))

/-- C7 counterexample: two users with the same id but different remaining
fields produce different `createFreeAiCredits` results under a vendor client
that inspects a non-id field — so the operation does not delegate the
`\x7bid: user.id\x7d` projection; it passes the whole user object. -/
theorem C7_credits_full_user_counterexample :
    userA.id = userB.id ∧
    (createFreeAiCreditsOp cfgEmpty envNone licTest sdkTest userA stateVendor).result ≠
      (createFreeAiCreditsOp cfgEmpty envNone licTest sdkTest userB stateVendor).result := by
  constructor
  · rfl
  · have ha : (createFreeAiCreditsOp cfgEmpty envNone licTest sdkTest userA
        stateVendor).result = Except.ok (Json.str "a@example.com") := rfl
    have hb : (createFreeAiCreditsOp cfgEmpty envNone licTest sdkTest userB
        stateVendor).result = Except.ok (Json.str "b@example.com") := rfl
    intro h
    rw [ha, hb] at h
    injection h with h1
    injection h1 with h2
    exact absurd h2 (by decide)

/-- C7 (amended): in VendorManaged mode, `chat`, `applySuggestion` and
`askAi` delegate to the corresponding vendor client method with the request
payload and the user reference `\x7bid: user.id\x7d`, propagating the vendor
result or failure unmodified; `createFreeAiCredits` also delegates and
propagates unmodified, but passes the **entire** user object rather than the
`\x7bid\x7d` projection. -/
theorem C7_vendor_delegation (cfg : GlobalConfig) (env : EnvVars) (lic : License)
    (transport : Transport) (sdk : VendorSdk) (chatReq : AiChatRequestDto)
    (applyReq : AiApplySuggestionRequestDto) (askReq : AiAskRequestDto) (user : IUser)
    (s : AiState) (cs : VendorClientSettings)
    (hclient : s.client = some cs) (hmode : hcOf s = none) :
    (chatOp cfg env lic transport sdk chatReq user s).result =
      sdk.chat cs chatReq { id := user.id } ∧
    (applySuggestionOp cfg env lic transport sdk applyReq user s).result =
      sdk.applySuggestion cs applyReq { id := user.id } ∧
    (askAiOp cfg env lic transport sdk askReq user s).result =
      sdk.askAi cs askReq { id := user.id } ∧
    (createFreeAiCreditsOp cfg env lic sdk user s).result =
      sdk.generateAiCreditsCredentials cs user := by
  have hs : afterEnsure cfg env lic s = s := afterEnsure_of_client cfg env lic hclient
  have hsc : afterEnsureCredits cfg env lic s = s :=
    afterEnsureCredits_of_client cfg env lic hclient
  refine ⟨?_, ?_, ?_, ?_⟩
  · simp [chatOp, chatDispatch, hs, hmode, hclient]
  · simp [applySuggestionOp, applySuggestionDispatch, hs, hmode, hclient]
  · simp [askAiOp, askAiDispatch, hs, hmode, hclient]
  · simp [createFreeAiCreditsOp, creditsDispatch, hsc, hclient]

/-- C7 witness: the concrete vendor-managed state. -/
theorem C7_vendor_delegation_witness :
    (chatOp cfgEmpty envNone licTest (transportConst (.success respNoChoices)) sdkTest
        chatReqTest userA stateVendor).result =
      sdkTest.chat vsTest chatReqTest { id := userA.id } ∧
    (applySuggestionOp cfgEmpty envNone licTest (transportConst (.success respNoChoices))
        sdkTest applyReqTest userA stateVendor).result =
      sdkTest.applySuggestion vsTest applyReqTest { id := userA.id } ∧
    (askAiOp cfgEmpty envNone licTest (transportConst (.success respNoChoices)) sdkTest
        askReqTest userA stateVendor).result =
      sdkTest.askAi vsTest askReqTest { id := userA.id } ∧
    (createFreeAiCreditsOp cfgEmpty envNone licTest sdkTest userA stateVendor).result =
      sdkTest.generateAiCreditsCredentials vsTest userA :=
  C7_vendor_delegation cfgEmpty envNone licTest (transportConst (.success respNoChoices))
    sdkTest chatReqTest applyReqTest askReqTest userA stateVendor vsTest rfl rfl
